import Mathlib

/-!
Shallow embedding of the appointment-booking core of the repository
(`AppointmentController` in `src/unnamed/part_000` and the lunch-aware
`generateAllTimeSlots` in `src/unnamed/part_001`).

Modelling conventions, applied uniformly:
* Mongo documents become a `List Appointment`; `Appointment.find` with a
  filter becomes `List.filter` (documents are returned in insertion order,
  the natural order of an unsorted Mongo query), `save` appends at the end
  of the list, and the generated `_id` is modelled as a `Nat` (fresh ids
  are taken as the current collection size; only distinctness matters).
* `parseDate` normalises a date string to a canonical midnight instant; all
  claims compare equal canonical `YYYY-MM-DD` strings, so the date is kept
  as the `String` itself.
* JavaScript falsy checks on request fields (`!date` etc.) become equality
  with the empty string.
* `String.prototype.split(":")` / `Number(...)` / `padStart(2, "0")` are
  embedded as executable char-list functions with the same behaviour on
  the label alphabet the controller manipulates; a failed parse takes the
  `"NaN:NaN"` path that the JavaScript arithmetic would produce.
-/

inductive Status where
  | pending
  | confirmed
  | cancelled
deriving DecidableEq

structure Appointment where
  id : Nat
  date : String
  timeSlot : String
  clientName : String
  clientEmail : String
  duration : Nat
  status : Status
deriving DecidableEq

/-- `status ∈ {pending, confirmed}` — the `{ $in: ["pending", "confirmed"] }`
filter used by every active-appointment query in the controller. -/
def isActive (a : Appointment) : Bool :=
  a.status == Status.pending || a.status == Status.confirmed

/-- `String(n)` for a natural number (decimal digits). -/
def natToString (n : Nat) : String :=
  toString n

/-- `s.padStart(2, "0")` from `timeSlots.ts` / `getNextTimeSlot`. -/
def padStart2 (s : String) : String :=
  if s.length ≥ 2 then s else if s.length = 1 then "0" ++ s else "00"

/-- Working-hours configuration of `src/unnamed/part_001`:
`START_HOUR = 6`, i.e. `6 * 60` minutes. -/
def START_MINUTES : Nat := 360

/-- `Math.floor(END_HOUR_LIMIT * 60)` with `END_HOUR_LIMIT = 20.5`. -/
def END_LIMIT_MINUTES : Nat := 1230

/-- `LUNCH_START_MINUTES = 12.5 * 60` (12:30). -/
def LUNCH_START_MINUTES : Nat := 750

/-- `LUNCH_END_MINUTES = 14 * 60` (14:00). -/
def LUNCH_END_MINUTES : Nat := 840

/-- `SLOT_DURATION_MINUTES = 30`. -/
def SLOT_DURATION_MINUTES : Nat := 30

/-- The `while (currentTimeMinutes < endTimeLimitMinutes)` loop of
`generateAllTimeSlots` (`src/unnamed/part_001`, lines 24-42).  The loop is
embedded with a fuel argument bounding the number of iterations; every run
from `START_MINUTES` performs at most `(1230 - 360) / 30 + 2` iterations, so
any fuel ≥ 32 computes the full list. -/
def slotsLoop : Nat → Nat → List String
  | 0, _ => []
  | fuel + 1, currentTimeMinutes =>
    if currentTimeMinutes < END_LIMIT_MINUTES then
      if LUNCH_START_MINUTES ≤ currentTimeMinutes ∧ currentTimeMinutes < LUNCH_END_MINUTES then
        -- lunch exclusion: jump directly to the end of the lunch window
        slotsLoop fuel LUNCH_END_MINUTES
      else
        (padStart2 (natToString (currentTimeMinutes / 60)) ++ ":"
            ++ padStart2 (natToString (currentTimeMinutes % 60)))
          :: slotsLoop fuel (currentTimeMinutes + SLOT_DURATION_MINUTES)
    else []

/-- `generateAllTimeSlots` of `src/unnamed/part_001`. -/
def generateAllTimeSlots : List String :=
  slotsLoop 64 START_MINUTES

/-- First two groups of `currentTime.split(":")`: the characters before the
first `:` and, when a `:` exists, the characters between the first and the
second `:`. -/
def firstTwoColonGroups (cs : List Char) : List Char × Option (List Char) :=
  let first := cs.takeWhile (fun c => c != ':')
  match cs.dropWhile (fun c => c != ':') with
  | [] => (first, none)
  | _ :: after => (first, some (after.takeWhile (fun c => c != ':')))

/-- `Number(part)` on a decimal-digit string; any other input takes the NaN
path of the JavaScript code. -/
def digitsToNat? (cs : List Char) : Option Nat :=
  if cs ≠ [] ∧ cs.all (fun c => c.isDigit) then
    some (cs.foldl (fun n c => n * 10 + (c.toNat - 48)) 0)
  else none

/-- `getNextTimeSlot` (`src/unnamed/part_000`, lines 87-97): parse `"HH:MM"`,
add 30 minutes via `Date.setMinutes`, and re-format with `getHours` (which
wraps modulo 24) and `getMinutes`, each zero-padded. -/
def getNextTimeSlot (currentTime : String) : String :=
  match firstTwoColonGroups currentTime.data with
  | (hs, some ms) =>
    match digitsToNat? hs, digitsToNat? ms with
    | some hours, some minutes =>
      let total := hours * 60 + minutes + SLOT_DURATION_MINUTES
      padStart2 (natToString (total / 60 % 24)) ++ ":" ++ padStart2 (natToString (total % 60))
    | _, _ => "NaN:NaN"
  | (_, none) => "NaN:NaN"

/-- `getAffectedTimeSlots` (`src/unnamed/part_000`, lines 99-108): the start
label, plus the following label exactly when the duration is 60. -/
def getAffectedTimeSlots (startTime : String) (duration : Nat) : List String :=
  [startTime] ++ (if duration == 60 then [getNextTimeSlot startTime] else [])

/-- The labels an appointment adds to the `bookedSlots` set in
`getAvailableSlots` (`src/unnamed/part_000`, lines 42-49): its start label,
plus `getNextTimeSlot` of it when its duration is 60. -/
def occupiedLabels (a : Appointment) : List String :=
  [a.timeSlot] ++ (if a.duration == 60 then [getNextTimeSlot a.timeSlot] else [])

/-- The `bookedSlots` set of `getAvailableSlots`: union of `occupiedLabels`
over the active appointments of the requested date (membership in the list
models membership in the JavaScript `Set`). -/
def bookedSlots (store : List Appointment) (date : String) : List String :=
  ((store.filter (fun a => a.date == date && isActive a)).map occupiedLabels).flatten

/-- The `allSlots.filter((slot, index, array) => ...)` body of
`getAvailableSlots` (`src/unnamed/part_000`, lines 51-72), written as a
structural scan that keeps the current slot together with its successor:
Regla A — the slot itself must not be booked; Regla B — the last slot of the
grid is never available (it cannot start a 60-minute service); Regla C — the
next slot must not be booked either. -/
def filterAvailable (booked : List String) : List String → List String
  | [] => []
  | [_] => []
  | slot :: next :: rest =>
    if slot ∈ booked then filterAvailable booked (next :: rest)
    else if next ∈ booked then filterAvailable booked (next :: rest)
    else slot :: filterAvailable booked (next :: rest)

/-- `getAvailableSlots` (`src/unnamed/part_000`, lines 18-82), for a date:
generate the grid, collect `bookedSlots` from the active appointments of the
date, and filter.  Note the handler takes no duration parameter. -/
def getAvailableSlots (store : List Appointment) (date : String) : List String :=
  filterAvailable (bookedSlots store date) generateAllTimeSlots

structure CreateRequest where
  date : String
  timeSlot : String
  clientName : String
  clientEmail : String
  duration : Nat
deriving DecidableEq

inductive CreateResult where
  | validationError
  | conflict (conflictSlot : String)
  | created (appointment : Appointment)
deriving DecidableEq

/-- The field validation of `createAppointment` (`src/unnamed/part_000`,
line 115): missing (falsy) fields or `duration < 30`. -/
def validationFails (req : CreateRequest) : Bool :=
  req.date == "" || req.timeSlot == "" || req.clientName == "" || req.clientEmail == ""
    || decide (req.duration < 30)

/-- PASO 2 of `createAppointment` (lines 132-150): the first document (in
collection order) whose `date` matches, whose `timeSlot` (start label) is in
`slotsToVerify`, and whose status is active — `occupiedAppointments[0]`. -/
def findConflict (store : List Appointment) (req : CreateRequest) : Option Appointment :=
  (store.filter (fun a =>
    a.date == req.date
      && (getAffectedTimeSlots req.timeSlot req.duration).contains a.timeSlot
      && isActive a)).head?

/-- The handler prefix of `createAppointment` up to and including the PASO 2
availability query: `some` early response (validation failure or conflict),
or `none` when the handler proceeds to the PASO 3 insert. -/
def handlerCheck (store : List Appointment) (req : CreateRequest) : Option CreateResult :=
  if validationFails req then some CreateResult.validationError
  else
    match findConflict store req with
    | some conflictApp => some (CreateResult.conflict conflictApp.timeSlot)
    | none => none

/-- PASO 3 of `createAppointment` (lines 161-182): build the single pending
document and `save` it. -/
def insertNew (store : List Appointment) (req : CreateRequest) : Appointment × List Appointment :=
  let newAppointment : Appointment :=
    { id := store.length
      date := req.date
      timeSlot := req.timeSlot
      clientName := req.clientName
      clientEmail := req.clientEmail
      duration := req.duration
      status := Status.pending }
  (newAppointment, store ++ [newAppointment])

/-- `createAppointment` (`src/unnamed/part_000`, lines 110-187): validation
and conflict check, then — only if both pass — the insert. -/
def createAppointment (store : List Appointment) (req : CreateRequest) :
    CreateResult × List Appointment :=
  match handlerCheck store req with
  | some earlyResponse => (earlyResponse, store)
  | none => (CreateResult.created (insertNew store req).fst, (insertNew store req).snd)

inductive UpdateResult where
  | notFound
  | ok (appointment : Appointment)
deriving DecidableEq

/-- `findById` on the collection: the first document with the given id. -/
def lookupById : List Appointment → Nat → Option Appointment
  | [], _ => none
  | a :: rest, id => if a.id == id then some a else lookupById rest id

/-- `findByIdAndUpdate(id, { status }, { new: true })`: update the document
with the given id (Mongo ids are unique, so the first match) and return the
updated document, or `notFound`. -/
def updateById : List Appointment → Nat → Status → UpdateResult × List Appointment
  | [], _, _ => (UpdateResult.notFound, [])
  | a :: rest, id, st =>
    if a.id == id then
      (UpdateResult.ok { a with status := st }, { a with status := st } :: rest)
    else
      ((updateById rest id st).fst, a :: (updateById rest id st).snd)

/-- `cancelAppointment` (`src/unnamed/part_000`, lines 208-234): set the
status to `cancelled` (the `ObjectId.isValid` guard is subsumed by `Nat`
ids, which are always well-formed). -/
def cancelAppointment (store : List Appointment) (id : Nat) : UpdateResult × List Appointment :=
  updateById store id Status.cancelled

/-- `confirmAppointment` (`src/unnamed/part_000`, lines 236-261): set the
status to `confirmed`, with no inspection of the current status. -/
def confirmAppointment (store : List Appointment) (id : Nat) : UpdateResult × List Appointment :=
  updateById store id Status.confirmed

/-- One interleaved execution of two concurrent `createAppointment` handler
invocations in which both run their PASO 2 conflict query against the same
initial collection state before either performs its PASO 3 insert — the
schedule admitted by the `await` boundary between the two non-atomic store
operations.  Each phase is the very function the sequential handler uses. -/
def raceBothCheckFirst (store : List Appointment) (req1 req2 : CreateRequest) :
    CreateResult × CreateResult × List Appointment :=
  match handlerCheck store req1, handlerCheck store req2 with
  | some r1, some r2 => (r1, r2, store)
  | some r1, none =>
    (r1, CreateResult.created (insertNew store req2).fst, (insertNew store req2).snd)
  | none, some r2 =>
    (CreateResult.created (insertNew store req1).fst, r2, (insertNew store req1).snd)
  | none, none =>
    (CreateResult.created (insertNew store req1).fst,
      CreateResult.created (insertNew (insertNew store req1).snd req2).fst,
      (insertNew (insertNew store req1).snd req2).snd)

/-- An admission or cancellation request, for reasoning about operation
sequences against the store. -/
inductive Op where
  | create (req : CreateRequest)
  | cancel (id : Nat)

/-- Apply one operation to the store, keeping the resulting state. -/
def applyOp (store : List Appointment) : Op → List Appointment
  | Op.create req => (createAppointment store req).snd
  | Op.cancel id => (cancelAppointment store id).snd

/-- Run a sequence of operations from the empty store. -/
def runOps (ops : List Op) : List Appointment :=
  ops.foldl applyOp []

/-- `a` is active on `date` and its occupied-label set contains `l`. -/
def occupiedBy (a : Appointment) (date : String) (l : String) : Bool :=
  a.date == date && isActive a && (occupiedLabels a).contains l

/-- Two distinct appointments violate the overlap invariant: same date, both
active, sharing an occupied label. -/
def labelsClash (a b : Appointment) : Bool :=
  a.date == b.date && isActive a && isActive b
    && (occupiedLabels a).any (fun l => (occupiedLabels b).contains l)

/-- The global invariant of the spec, evaluated on a store: no two distinct
active appointments of any date share an occupied slot label. -/
def storeConflictFree : List Appointment → Bool
  | [] => true
  | a :: rest => rest.all (fun b => !(labelsClash a b)) && storeConflictFree rest

/-! ## Helper lemmas about the availability filter and status updates -/

/-- Skipping a leading grid position preserves membership in the filtered
availability list. -/
theorem mem_filterAvailable_cons (booked : List String) (s t : String) (rest : List String)
    (x : String) (hx : x ∈ filterAvailable booked (t :: rest)) :
    x ∈ filterAvailable booked (s :: t :: rest) := by
  by_cases hs : s ∈ booked
  · simpa [filterAvailable, hs] using hx
  · by_cases ht : t ∈ booked
    · simpa [filterAvailable, hs, ht] using hx
    · simp only [filterAvailable, if_neg hs, if_neg ht, List.mem_cons]
      exact Or.inr hx

/-- Every label kept by the availability filter sits at a grid position that
has a successor, and neither the label nor its successor is booked. -/
theorem exists_pair_of_mem_filterAvailable (booked : List String) :
    ∀ (l : List String) (x : String), x ∈ filterAvailable booked l →
      ∃ t s u, s ++ ([x, t] ++ u) = l ∧ x ∉ booked ∧ t ∉ booked
  | [], x, hx => by simp [filterAvailable] at hx
  | [a], x, hx => by simp [filterAvailable] at hx
  | a :: b :: rest, x, hx => by
    by_cases ha : a ∈ booked
    · rw [filterAvailable, if_pos ha] at hx
      obtain ⟨t, s, u, e, hxb, htb⟩ := exists_pair_of_mem_filterAvailable booked (b :: rest) x hx
      exact ⟨t, a :: s, u, by rw [List.cons_append, e], hxb, htb⟩
    · by_cases hb : b ∈ booked
      · rw [filterAvailable, if_neg ha, if_pos hb] at hx
        obtain ⟨t, s, u, e, hxb, htb⟩ := exists_pair_of_mem_filterAvailable booked (b :: rest) x hx
        exact ⟨t, a :: s, u, by rw [List.cons_append, e], hxb, htb⟩
      · rw [filterAvailable, if_neg ha, if_neg hb] at hx
        rcases List.mem_cons.mp hx with rfl | hx'
        · exact ⟨b, [], rest, rfl, ha, hb⟩
        · obtain ⟨t, s, u, e, hxb, htb⟩ := exists_pair_of_mem_filterAvailable booked (b :: rest) x hx'
          exact ⟨t, a :: s, u, by rw [List.cons_append, e], hxb, htb⟩

/-- A grid position whose successor exists is kept by the availability filter
whenever neither the position nor its successor is booked. -/
theorem mem_filterAvailable_of_pair (booked : List String) :
    ∀ (s u : List String) (x t : String), x ∉ booked → t ∉ booked →
      x ∈ filterAvailable booked (s ++ ([x, t] ++ u))
  | [], u, x, t, hx, ht => by
    simp only [List.nil_append, List.cons_append, filterAvailable, if_neg hx, if_neg ht]
    exact List.mem_cons_self x _
  | b :: s', u, x, t, hx, ht => by
    have ih := mem_filterAvailable_of_pair booked s' u x t hx ht
    show x ∈ filterAvailable booked (b :: (s' ++ ([x, t] ++ u)))
    cases hsp : s' ++ ([x, t] ++ u) with
    | nil => simp at hsp
    | cons hd tl =>
      rw [hsp] at ih
      exact mem_filterAvailable_cons booked b hd tl x ih

/-- A grid position that has a successor is not the last position: it occurs
in `dropLast` of the grid. -/
theorem fst_mem_dropLast_of_pair :
    ∀ (s u : List String) (x t : String), x ∈ (s ++ ([x, t] ++ u)).dropLast
  | [], u, x, t => by
    show x ∈ (x :: t :: u).dropLast
    rw [List.dropLast_cons₂]
    exact List.mem_cons_self x _
  | b :: s', u, x, t => by
    have ih := fst_mem_dropLast_of_pair s' u x t
    show x ∈ (b :: (s' ++ ([x, t] ++ u))).dropLast
    cases hsp : s' ++ ([x, t] ++ u) with
    | nil => simp at hsp
    | cons hd tl =>
      rw [hsp] at ih
      rw [List.dropLast_cons₂]
      exact List.mem_cons_of_mem b ih

/-- The grid's final label `"20:00"` never survives the availability filter,
whatever the booked set is (Regla B of `getAvailableSlots`). -/
theorem lastLabel_not_mem_filterAvailable (booked : List String) :
    "20:00" ∉ filterAvailable booked generateAllTimeSlots := by
  intro h
  obtain ⟨t, s, u, e, _, _⟩ :=
    exists_pair_of_mem_filterAvailable booked generateAllTimeSlots "20:00" h
  have hmem : "20:00" ∈ generateAllTimeSlots.dropLast := by
    rw [← e]
    exact fst_mem_dropLast_of_pair s u "20:00" t
  revert hmem
  decide

/-- `findByIdAndUpdate` with `{ new: true }`: when the id is present, the
returned document is the old one with the new status, and looking the id up
in the updated collection finds exactly that document. -/
theorem updateById_found : ∀ (store : List Appointment) (id : Nat) (st : Status)
    (app : Appointment), lookupById store id = some app →
    (updateById store id st).fst = UpdateResult.ok { app with status := st } ∧
    lookupById (updateById store id st).snd id = some { app with status := st }
  | [], _, _, _, h => by simp [lookupById] at h
  | a :: rest, id, st, app, h => by
    by_cases ha : (a.id == id) = true
    · rw [lookupById, if_pos ha] at h
      obtain rfl : a = app := by simpa using h
      constructor
      · rw [updateById, if_pos ha]
      · rw [updateById, if_pos ha]
        show lookupById ({ a with status := st } :: rest) id = _
        rw [lookupById, if_pos ha]
    · rw [lookupById, if_neg ha] at h
      have ih := updateById_found rest id st app h
      constructor
      · rw [updateById, if_neg ha]
        exact ih.1
      · rw [updateById, if_neg ha]
        show lookupById (a :: (updateById rest id st).snd) id = _
        rw [lookupById, if_neg ha]
        exact ih.2

/-- When `findByIdAndUpdate` succeeds, the returned document carries the
written status. -/
theorem updateById_status : ∀ (store : List Appointment) (id : Nat) (st : Status)
    (app : Appointment), (updateById store id st).fst = UpdateResult.ok app →
    app.status = st
  | [], _, _, _, h => by simp [updateById] at h
  | a :: rest, id, st, app, h => by
    by_cases ha : (a.id == id) = true
    · rw [updateById, if_pos ha] at h
      obtain rfl : { a with status := st } = app := by simpa using h
      rfl
    · rw [updateById, if_neg ha] at h
      exact updateById_status rest id st app h


/-! ## Claim theorems -/

/-- C1: the claim states that after every sequence of admissions and
cancellations from the empty store no two distinct active appointments of a
date share an occupied label.  Evaluating the code at the failing input —
admit a 60-minute appointment at 09:00, then a 30-minute appointment at
09:30 on the same date — shows the invariant violated: the PASO 2 conflict
query matches only existing start labels, so the second admission is
accepted and both active appointments occupy "09:30". -/
theorem c1_invariant_violated_by_second_label_overlap :
    storeConflictFree (runOps
      [Op.create ⟨"2026-01-05", "09:00", "Ana", "ana@mail.com", 60⟩,
       Op.create ⟨"2026-01-05", "09:30", "Eva", "eva@mail.com", 30⟩]) = false := by
  decide

/-- C2: the claim states that `createAppointment` rejects whenever any active
appointment occupies a required label, including the second occupied label of
an existing 60-minute appointment.  Evaluating the code at the failing input
— store holding a pending 60-minute appointment at 09:00, request for 09:30 —
shows the code instead creates a second pending record: the conflict query
matches only start labels. -/
theorem c2_conflict_check_misses_second_label :
    createAppointment
      [⟨0, "2026-01-05", "09:00", "Ana", "ana@mail.com", 60, Status.pending⟩]
      ⟨"2026-01-05", "09:30", "Eva", "eva@mail.com", 30⟩ =
    (CreateResult.created ⟨1, "2026-01-05", "09:30", "Eva", "eva@mail.com", 30, Status.pending⟩,
     [⟨0, "2026-01-05", "09:00", "Ana", "ana@mail.com", 60, Status.pending⟩,
      ⟨1, "2026-01-05", "09:30", "Eva", "eva@mail.com", 30, Status.pending⟩]) := by
  decide

/-- C3: the claim states that of N concurrent overlapping admissions exactly
one succeeds.  Evaluating the interleaving in which both handlers run their
conflict query before either inserts — the window left open by the two
separate awaited store operations — shows both requests for 09:00/60 on the
same date succeed and the resulting store violates the overlap invariant. -/
theorem c3_race_admits_two_winners :
    raceBothCheckFirst []
      ⟨"2026-01-05", "09:00", "Ana", "ana@mail.com", 60⟩
      ⟨"2026-01-05", "09:00", "Eva", "eva@mail.com", 60⟩ =
    (CreateResult.created ⟨0, "2026-01-05", "09:00", "Ana", "ana@mail.com", 60, Status.pending⟩,
     CreateResult.created ⟨1, "2026-01-05", "09:00", "Eva", "eva@mail.com", 60, Status.pending⟩,
     [⟨0, "2026-01-05", "09:00", "Ana", "ana@mail.com", 60, Status.pending⟩,
      ⟨1, "2026-01-05", "09:00", "Eva", "eva@mail.com", 60, Status.pending⟩]) ∧
    storeConflictFree
      [⟨0, "2026-01-05", "09:00", "Ana", "ana@mail.com", 60, Status.pending⟩,
       ⟨1, "2026-01-05", "09:00", "Eva", "eva@mail.com", 60, Status.pending⟩] = false := by
  constructor
  · decide
  · decide

/-- C4 counterexample: the claim states that availability never returns a
start whose 60-minute run crosses the lunch gap, and in particular that
"12:00" is never returned.  On the empty store the code does return "12:00"
(its array successor is "14:00", which is free), refuting the claim. -/
theorem c4_lunch_crossing_start_returned :
    "12:00" ∈ getAvailableSlots [] "2026-01-05" := by
  decide

/-- C4 amended: `getAvailableSlots` never returns the grid's last label (so a
60-minute run never goes past the grid), but it can return a start whose run
crosses the lunch gap: "12:00" is returned whenever neither "12:00" nor
"14:00" is occupied, even though 12:30 lies inside the lunch window. -/
theorem c4_no_boundary_overrun_but_gap_crossing (store : List Appointment) (date : String) :
    "20:00" ∉ getAvailableSlots store date ∧
    ("12:00" ∉ bookedSlots store date → "14:00" ∉ bookedSlots store date →
      "12:00" ∈ getAvailableSlots store date) := by
  constructor
  · exact lastLabel_not_mem_filterAvailable (bookedSlots store date)
  · intro h12 h14
    show "12:00" ∈ filterAvailable (bookedSlots store date) generateAllTimeSlots
    have e : ["06:00", "06:30", "07:00", "07:30", "08:00", "08:30", "09:00", "09:30",
          "10:00", "10:30", "11:00", "11:30"]
        ++ (["12:00", "14:00"]
          ++ ["14:30", "15:00", "15:30", "16:00", "16:30", "17:00", "17:30", "18:00",
            "18:30", "19:00", "19:30", "20:00"]) = generateAllTimeSlots := by decide
    rw [← e]
    exact mem_filterAvailable_of_pair (bookedSlots store date) _ _ "12:00" "14:00" h12 h14

/-- C4 amended, witnessed on the empty store. -/
theorem c4_no_boundary_overrun_but_gap_crossing_witness :
    "20:00" ∉ getAvailableSlots [] "2026-01-05" ∧ "12:00" ∈ getAvailableSlots [] "2026-01-05" :=
  ⟨(c4_no_boundary_overrun_but_gap_crossing [] "2026-01-05").1,
   (c4_no_boundary_overrun_but_gap_crossing [] "2026-01-05").2 (by decide) (by decide)⟩

/-- C5: the claim states that booking the grid's last label "20:00" with
duration 60 yields a ValidationError before any store access.  Evaluating the
code at that input on the empty store shows no such validation exists: the
handler runs the conflict query and inserts a pending record whose second
occupied label 20:30 lies outside the grid. -/
theorem c5_last_label_booking_not_rejected :
    createAppointment [] ⟨"2026-01-05", "20:00", "Ana", "ana@mail.com", 60⟩ =
    (CreateResult.created ⟨0, "2026-01-05", "20:00", "Ana", "ana@mail.com", 60, Status.pending⟩,
     [⟨0, "2026-01-05", "20:00", "Ana", "ana@mail.com", 60, Status.pending⟩]) := by
  decide

/-- C6: with START_HOUR = 6, END_LIMIT = 20.5, 30-minute granularity and the
12:30–14:00 lunch window, the generated grid contains "12:00" immediately
followed by "14:00", contains none of "12:30", "13:00", "13:30", and its last
element is "20:00". -/
theorem c6_grid_lunch_gap_and_last_label :
    ["12:00", "14:00"] <:+: generateAllTimeSlots ∧
    "12:30" ∉ generateAllTimeSlots ∧
    "13:00" ∉ generateAllTimeSlots ∧
    "13:30" ∉ generateAllTimeSlots ∧
    generateAllTimeSlots.getLast? = some "20:00" := by
  refine ⟨⟨["06:00", "06:30", "07:00", "07:30", "08:00", "08:30", "09:00", "09:30",
      "10:00", "10:30", "11:00", "11:30"],
    ["14:30", "15:00", "15:30", "16:00", "16:30", "17:00", "17:30", "18:00",
      "18:30", "19:00", "19:30", "20:00"], by decide⟩,
    by decide, by decide, by decide, by decide⟩

/-- C7 counterexample: the claim states that a duration that is not a
positive multiple of the granularity (45) or a start not on the grid yields a
ValidationError with no record created.  Evaluating the code shows both a
45-minute request and a request starting at "13:00" (inside the lunch window,
absent from the grid) are accepted and create pending records. -/
theorem c7_invalid_requests_accepted :
    createAppointment [] ⟨"2026-01-05", "09:00", "Ana", "ana@mail.com", 45⟩ =
    (CreateResult.created ⟨0, "2026-01-05", "09:00", "Ana", "ana@mail.com", 45, Status.pending⟩,
     [⟨0, "2026-01-05", "09:00", "Ana", "ana@mail.com", 45, Status.pending⟩]) ∧
    createAppointment [] ⟨"2026-01-05", "13:00", "Eva", "eva@mail.com", 30⟩ =
    (CreateResult.created ⟨0, "2026-01-05", "13:00", "Eva", "eva@mail.com", 30, Status.pending⟩,
     [⟨0, "2026-01-05", "13:00", "Eva", "eva@mail.com", 30, Status.pending⟩]) := by
  constructor
  · decide
  · decide

/-- C7 amended: `createAppointment` returns a ValidationError exactly when a
request field is missing (empty) or the duration is below 30, and in that
case the store is untouched; durations ≥ 30 that are not multiples of the
granularity and starts absent from the grid are not rejected. -/
theorem c7_validation_is_fields_and_min_duration (store : List Appointment) (req : CreateRequest) :
    ((createAppointment store req).fst = CreateResult.validationError
      ↔ validationFails req = true) ∧
    (validationFails req = true → (createAppointment store req).snd = store) := by
  by_cases hv : validationFails req = true
  · simp [createAppointment, handlerCheck, hv]
  · cases hf : findConflict store req with
    | none => simp [createAppointment, handlerCheck, hv, hf]
    | some conflictApp => simp [createAppointment, handlerCheck, hv, hf]

/-- C7 amended, witnessed at a request with duration 10 (rejected, store
untouched). -/
theorem c7_validation_is_fields_and_min_duration_witness :
    ((createAppointment [] ⟨"2026-01-05", "09:00", "Ana", "ana@mail.com", 10⟩).fst
        = CreateResult.validationError
      ↔ validationFails ⟨"2026-01-05", "09:00", "Ana", "ana@mail.com", 10⟩ = true) ∧
    (createAppointment [] ⟨"2026-01-05", "09:00", "Ana", "ana@mail.com", 10⟩).snd = [] :=
  ⟨(c7_validation_is_fields_and_min_duration [] ⟨"2026-01-05", "09:00", "Ana", "ana@mail.com", 10⟩).1,
   (c7_validation_is_fields_and_min_duration [] ⟨"2026-01-05", "09:00", "Ana", "ana@mail.com", 10⟩).2
     (by decide)⟩

/-- C8 counterexample: the claim states that after cancelling an appointment
every label it occupied reappears in availability provided no other active
appointment occupies it.  Create 09:00/30 and 09:30/30, cancel the first: no
active appointment occupies "09:00", yet "09:00" is not returned, because the
filter also requires the successor slot "09:30" to be free (Regla C). -/
theorem c8_freed_label_still_withheld :
    (runOps [Op.create ⟨"2026-01-05", "09:00", "Ana", "ana@mail.com", 30⟩,
        Op.create ⟨"2026-01-05", "09:30", "Eva", "eva@mail.com", 30⟩,
        Op.cancel 0]).all
      (fun a => !(occupiedBy a "2026-01-05" "09:00")) = true ∧
    "09:00" ∉ getAvailableSlots
      (runOps [Op.create ⟨"2026-01-05", "09:00", "Ana", "ana@mail.com", 30⟩,
        Op.create ⟨"2026-01-05", "09:30", "Eva", "eva@mail.com", 30⟩,
        Op.cancel 0]) "2026-01-05" := by
  constructor
  · decide
  · decide

/-- C8 amended: cancelling sets the status to `cancelled`, after which the
appointment occupies no label; and a label reappears in a subsequent
availability query provided it is not the grid's last label (it has a grid
successor) and neither it nor that successor is occupied by an active
appointment. -/
theorem c8_cancel_frees_labels (store : List Appointment) (id : Nat) (app : Appointment)
    (store' : List Appointment)
    (h : cancelAppointment store id = (UpdateResult.ok app, store')) :
    app.status = Status.cancelled ∧
    (∀ date l, occupiedBy app date l = false) ∧
    (∀ date l t, [l, t] <:+: generateAllTimeSlots →
      l ∉ bookedSlots store' date → t ∉ bookedSlots store' date →
      l ∈ getAvailableSlots store' date) := by
  have hfst : (updateById store id Status.cancelled).fst = UpdateResult.ok app := by
    have h' := congrArg Prod.fst h
    simpa [cancelAppointment] using h'
  have hst := updateById_status store id Status.cancelled app hfst
  refine ⟨hst, ?_, ?_⟩
  · intro date l
    have hact : isActive app = false := by
      simp only [isActive, hst]
      decide
    simp [occupiedBy, hact]
  · intro date l t hinf hl ht
    obtain ⟨s, u, e⟩ := hinf
    show l ∈ filterAvailable (bookedSlots store' date) generateAllTimeSlots
    rw [← e, List.append_assoc]
    exact mem_filterAvailable_of_pair (bookedSlots store' date) s u l t hl ht

/-- C8 amended, witnessed: cancel the sole pending 60-minute appointment at
09:00; its status becomes `cancelled` and "09:00" reappears as available. -/
theorem c8_cancel_frees_labels_witness :
    (⟨0, "2026-01-05", "09:00", "Ana", "ana@mail.com", 60,
        Status.cancelled⟩ : Appointment).status = Status.cancelled ∧
    "09:00" ∈ getAvailableSlots
      [⟨0, "2026-01-05", "09:00", "Ana", "ana@mail.com", 60, Status.cancelled⟩] "2026-01-05" := by
  have h : cancelAppointment
      [⟨0, "2026-01-05", "09:00", "Ana", "ana@mail.com", 60, Status.pending⟩] 0 =
      (UpdateResult.ok ⟨0, "2026-01-05", "09:00", "Ana", "ana@mail.com", 60, Status.cancelled⟩,
       [⟨0, "2026-01-05", "09:00", "Ana", "ana@mail.com", 60, Status.cancelled⟩]) := by decide
  refine ⟨(c8_cancel_frees_labels _ _ _ _ h).1, ?_⟩
  exact (c8_cancel_frees_labels _ _ _ _ h).2.2 "2026-01-05" "09:00" "09:30"
    ⟨["06:00", "06:30", "07:00", "07:30", "08:00", "08:30"],
     ["10:00", "10:30", "11:00", "11:30", "12:00", "14:00", "14:30", "15:00", "15:30",
      "16:00", "16:30", "17:00", "17:30", "18:00", "18:30", "19:00", "19:30", "20:00"],
     by decide⟩
    (by decide) (by decide)

/-- C9: `confirmAppointment` writes status `confirmed` unconditionally — for
any store and any appointment found under the id, whatever its current
status (including `cancelled`), the returned document and the stored document
both carry status `confirmed`. -/
theorem c9_confirm_ignores_current_status (store : List Appointment) (id : Nat)
    (app : Appointment) (h : lookupById store id = some app) :
    (confirmAppointment store id).fst = UpdateResult.ok { app with status := Status.confirmed } ∧
    lookupById (confirmAppointment store id).snd id
      = some { app with status := Status.confirmed } :=
  updateById_found store id Status.confirmed app h

/-- C9 witnessed on a cancelled appointment whose labels were meanwhile taken
by another active appointment: confirming resurrects it and the resulting
store violates the overlap invariant. -/
theorem c9_confirm_ignores_current_status_witness :
    (confirmAppointment
      [⟨0, "2026-01-05", "09:00", "Ana", "ana@mail.com", 60, Status.cancelled⟩,
       ⟨1, "2026-01-05", "09:00", "Eva", "eva@mail.com", 60, Status.pending⟩] 0).fst =
      UpdateResult.ok ⟨0, "2026-01-05", "09:00", "Ana", "ana@mail.com", 60, Status.confirmed⟩ ∧
    storeConflictFree (confirmAppointment
      [⟨0, "2026-01-05", "09:00", "Ana", "ana@mail.com", 60, Status.cancelled⟩,
       ⟨1, "2026-01-05", "09:00", "Eva", "eva@mail.com", 60, Status.pending⟩] 0).snd = false := by
  constructor
  · exact (c9_confirm_ignores_current_status _ 0
      ⟨0, "2026-01-05", "09:00", "Ana", "ana@mail.com", 60, Status.cancelled⟩ (by decide)).1
  · decide

/-- C10: `getAvailableSlots` takes no duration parameter and always applies
the two-slot rules: for every store it never returns the grid's final label,
and every label it returns has a grid-array successor that is itself
unoccupied. -/
theorem c10_always_two_slot_rules (store : List Appointment) (date : String) :
    "20:00" ∉ getAvailableSlots store date ∧
    ∀ s, s ∈ getAvailableSlots store date →
      ∃ t, [s, t] <:+: generateAllTimeSlots ∧ t ∉ bookedSlots store date := by
  constructor
  · exact lastLabel_not_mem_filterAvailable (bookedSlots store date)
  · intro s hs
    obtain ⟨t, s1, u, e, _, htb⟩ :=
      exists_pair_of_mem_filterAvailable (bookedSlots store date) generateAllTimeSlots s hs
    exact ⟨t, ⟨s1, u, by rw [List.append_assoc, e]⟩, htb⟩

/-- C10 witnessed on the empty store at the returned label "06:00". -/
theorem c10_always_two_slot_rules_witness :
    "20:00" ∉ getAvailableSlots [] "2026-01-05" ∧
    ∃ t, ["06:00", t] <:+: generateAllTimeSlots ∧ t ∉ bookedSlots [] "2026-01-05" :=
  ⟨(c10_always_two_slot_rules [] "2026-01-05").1,
   (c10_always_two_slot_rules [] "2026-01-05").2 "06:00" (by decide)⟩
